import Mathlib

/-!
Shallow embedding of `flytekit/configuration/file.py`: the layered
configuration-resolution utility (environment variable → legacy INI file →
YAML file), with its entry descriptors, transforms, file loading and the
config-file locator.

Python dynamic values are modelled by the inductive `Value`, with
`Value.null` playing the role of Python `None` (both "absent" and the YAML
null document, which the source does not distinguish).  Python exceptions
are modelled by `Except PyError`; functions that the source guarantees
cannot raise return plain values.  External parsers (`yaml.safe_load`,
`configparser.ConfigParser.read`) are modelled by their outcome: either a
parsed document or a parse failure.
-/

set_option autoImplicit false

namespace FlytekitConfig

/-- Python runtime value, as far as this module manipulates them.
`null` is Python `None`. -/
inductive Value where
  | null
  | bool (b : Bool)
  | int (n : Int)
  | str (s : String)
  | list (xs : List Value)
  | dict (entries : List (String × Value))
  deriving Repr

/-- Python truthiness (`if v:`) for the values handled here: `None`, `False`,
`0`, `""`, `[]` and `{}` are falsy, everything else truthy. -/
def pyTruthy : Value → Bool
  | .null => false
  | .bool b => b
  | .int n => n != 0
  | .str s => s != ""
  | .list xs => !xs.isEmpty
  | .dict es => !es.isEmpty

/-- Python `None` test (`v is None`). -/
def Value.isNull : Value → Bool
  | .null => true
  | _ => false

/-- Exception classes the module can raise or catch, collapsed to the
granularity its `try/except` clauses distinguish.  `configparserError`
stands for `configparser.Error` and all its subclasses (missing
section/option, file parse and interpolation errors); `valueError` is what
`getint`/`getboolean` raise on an unparsable value. -/
inductive PyError where
  | configparserError
  | valueError
  | keyError
  | typeError
  | attributeError
  | notImplementedError
  | flyteAssertion
  deriving DecidableEq, Repr

/-- The `type_` field of a `LegacyConfigEntry`: the Python type object used
for `issubclass` dispatch in `ConfigFile._get_from_legacy` and for the
default-transform lookup in `ConfigEntry.__post_init__`. -/
inductive PyType where
  | str
  | bool
  | int
  | list
  deriving DecidableEq, Repr

/-- Environment (`os.environ`): an association list from variable name to
string value.  A variable present with value `""` is set (Python
`os.environ.get` returns `""`, which `is not None`). -/
abbrev EnvMap := List (String × String)

/-- `os.environ.get(name, None)`. -/
def envLookup (env : EnvMap) (name : String) : Option String :=
  List.lookup name env

/-- Python `str.upper()` (ASCII case mapping; section/option names here are
ASCII). -/
def pyUpper (s : String) : String := String.mk (s.data.map Char.toUpper)

/-- Python `str.lower()` (ASCII case mapping). -/
def pyLower (s : String) : String := String.mk (s.data.map Char.toLower)

/-- Python `str.endswith(suffix)`. -/
def pyEndsWith (s suffix : String) : Bool :=
  s.data.reverse.take suffix.data.length == suffix.data.reverse

/-- Helper for Python `str.split(sep)` with a one-character separator: the
result is always non-empty, `""` splits to `[""]`, and adjacent separators
produce empty pieces. -/
def splitCharAux (sep : Char) : List Char → List (List Char)
  | [] => [[]]
  | c :: rest =>
    match splitCharAux sep rest with
    | [] => [[]]
    | h :: t => if c == sep then [] :: h :: t else (c :: h) :: t

/-- Python `str.split(sep)` for the one-character separators this module
uses (`","` and `"."`). -/
def pySplit (s : String) (sep : Char) : List String :=
  (splitCharAux sep s.data).map String.mk

/-- Python `str.strip()`: remove leading and trailing whitespace. -/
def pyStrip (s : String) : String :=
  String.mk (((s.data.dropWhile Char.isWhitespace).reverse.dropWhile
    Char.isWhitespace).reverse)

/-- Value of a non-empty decimal digit string. -/
def digitsToNat (cs : List Char) : Nat :=
  cs.foldl (fun n c => 10 * n + (c.toNat - 48)) 0

/-- Python `transform(v) if transform else v`: a function object is always
truthy, `None` is falsy. -/
def applyTransform (t : Option (Value → Value)) (v : Value) : Value :=
  match t with
  | some f => f v
  | none => v

/-- `bool_transformer` (file.py): a string is mapped to `True` exactly when
it is non-empty and its lower-casing is none of `"false"`, `"0"`, `"off"`,
`"no"`; a non-string value passes through unchanged. -/
def bool_transformer (config_val : Value) : Value :=
  match config_val with
  | .str s => .bool (s != "" && !(["false", "0", "off", "no"].contains (pyLower s)))
  | v => v

/-- Parsed INI document: sections, each an association list of options to
raw string values, as produced by a successful `configparser` parse (option
names already passed through the parser's transform). -/
abbrev IniDoc := List (String × List (String × String))

/-- `ConfigParser.has_section`. -/
def hasSection (doc : IniDoc) (s : String) : Bool :=
  (List.lookup s doc).isSome

/-- Raw `ConfigParser.get`: missing section or option raises
`NoSectionError`/`NoOptionError`, both subclasses of `configparser.Error`. -/
def iniGet (doc : IniDoc) (sec opt : String) : Except PyError String :=
  match List.lookup sec doc with
  | none => .error .configparserError
  | some opts =>
    match List.lookup opt opts with
    | none => .error .configparserError
    | some v => .ok v

/-- `ConfigParser.getboolean`'s `_convert_to_boolean`: accepts the parser's
`BOOLEAN_STATES` keys after lower-casing, otherwise raises `ValueError`
(which is NOT a `configparser.Error`). -/
def iniConvertToBoolean (v : String) : Except PyError Value :=
  if ["1", "yes", "true", "on"].contains (pyLower v) then .ok (.bool true)
  else if ["0", "no", "false", "off"].contains (pyLower v) then .ok (.bool false)
  else .error .valueError

/-- Python `int(v)` as used by `ConfigParser.getint` on ASCII config
values: optional surrounding whitespace, optional sign, a non-empty digit
string; anything else raises `ValueError`. -/
def pyInt (v : String) : Except PyError Value :=
  match (pyStrip v).data with
  | '-' :: core =>
    if !core.isEmpty && core.all Char.isDigit then .ok (.int (-(digitsToNat core : Int)))
    else .error .valueError
  | '+' :: core =>
    if !core.isEmpty && core.all Char.isDigit then .ok (.int (digitsToNat core : Int))
    else .error .valueError
  | core =>
    if !core.isEmpty && core.all Char.isDigit then .ok (.int (digitsToNat core : Int))
    else .error .valueError

/-- `LegacyConfigEntry`: section/option descriptor for INI-style lookup. -/
structure LegacyConfigEntry where
  «section» : String
  option : String
  type_ : PyType := .str

/-- `YamlConfigEntry`: dot-delimited switch descriptor for YAML lookup. -/
structure YamlConfigEntry where
  switch : String
  config_value_type : PyType := .str

/-- Environment variable name used by `LegacyConfigEntry.read_from_env`:
`FLYTE_{SECTION}_{OPTION}`, upper-cased. -/
def LegacyConfigEntry.envVarName (c : LegacyConfigEntry) : String :=
  "FLYTE_" ++ pyUpper c.«section» ++ "_" ++ pyUpper c.option

/-- `LegacyConfigEntry.read_from_env`: look the variable up in the
environment; unset yields `None`; otherwise the transform (when provided)
is applied to the raw string. -/
def LegacyConfigEntry.read_from_env (c : LegacyConfigEntry) (env : EnvMap)
    (transform : Option (Value → Value)) : Value :=
  match envLookup env c.envVarName with
  | none => .null
  | some v => applyTransform transform (.str v)

/-- `ConfigFile` after a successful `__init__`: `legacy_config` is the
parsed INI document or Python `None`; `yaml_config` is whatever
`_read_yaml_config` stored (a document, or `null` when the YAML failed to
parse, when the document itself was null, or for INI-backed files). -/
structure ConfigFile where
  location : String
  legacy_config : Option IniDoc
  yaml_config : Value

/-- Outcome of `configparser.ConfigParser.read` on a location: a parsed
document, or a raised `configparser.Error` (e.g. `MissingSectionHeaderError`
on malformed content). -/
inductive IniParse where
  | ok (doc : IniDoc)
  | err
  deriving Repr

/-- Outcome of `yaml.safe_load` on a location's content: a document (which
may itself be null, e.g. for an empty file), or a raised `yaml.YAMLError`. -/
inductive YamlParse where
  | ok (doc : Value)
  | err
  deriving Repr

/-- `ConfigFile.__init__`: a location ending in `"yaml"` is loaded through
`_read_yaml_config` (a `yaml.YAMLError` is logged and the document stored
as `None`, never raised); any other location is loaded through
`_read_legacy_config` (a parse error propagates, and a parsed document
containing a section named `"internal"` raises `FlyteAssertion`). -/
def ConfigFile.mk? (location : String) (ini : IniParse) (yml : YamlParse) :
    Except PyError ConfigFile :=
  if pyEndsWith location "yaml" then
    match yml with
    | .ok d => .ok ⟨location, none, d⟩
    | .err => .ok ⟨location, none, .null⟩
  else
    match ini with
    | .err => .error .configparserError
    | .ok doc =>
      if hasSection doc "internal" then .error .flyteAssertion
      else .ok ⟨location, some doc, .null⟩

/-- `ConfigFile._get_from_legacy`: `issubclass`-directed extraction.  The
`bool` branch is checked before `int` (Python `bool` is a subclass of
`int`).  When `legacy_config` is `None` the attribute access
`None.getboolean`/`None.get` raises `AttributeError`. -/
def ConfigFile._get_from_legacy (cf : ConfigFile) (c : LegacyConfigEntry) :
    Except PyError Value :=
  match cf.legacy_config with
  | none => .error .attributeError
  | some doc =>
    match c.type_ with
    | .bool => iniGet doc c.«section» c.option >>= iniConvertToBoolean
    | .int => iniGet doc c.«section» c.option >>= pyInt
    | .list => (iniGet doc c.«section» c.option).map
        (fun v => .list ((pySplit v ',').map Value.str))
    | .str => (iniGet doc c.«section» c.option).map Value.str

/-- One step `d[k]` of the dot-path walk: a dict without the key raises
`KeyError`; any non-dict (string, int, list, `None`, bool) raises
`TypeError` on a string subscript. -/
def yamlWalk (d : Value) (keys : List String) : Except PyError Value :=
  match keys with
  | [] => .ok d
  | k :: ks =>
    match d with
    | .dict es =>
      match List.lookup k es with
      | some v => yamlWalk v ks
      | none => .error .keyError
    | _ => .error .typeError

/-- `ConfigFile._get_from_yaml`: split the switch on `"."`, walk the stored
document; only `KeyError` is caught (logged, `None` returned) — a
`TypeError` from subscripting a non-mapping propagates. -/
def ConfigFile._get_from_yaml (cf : ConfigFile) (c : YamlConfigEntry) :
    Except PyError Value :=
  match yamlWalk cf.yaml_config (pySplit c.switch '.') with
  | .ok v => .ok v
  | .error .keyError => .ok .null
  | .error e => .error e

/-- The two descriptor shapes `ConfigFile.get` dispatches on. -/
inductive Descriptor where
  | legacy (c : LegacyConfigEntry)
  | yamlD (c : YamlConfigEntry)

/-- `ConfigFile.get`: a `LegacyConfigEntry` goes to `_get_from_legacy`
unconditionally; a `YamlConfigEntry` goes to `_get_from_yaml` only when
`self.yaml_config` is truthy; otherwise `NotImplementedError` is raised. -/
def ConfigFile.get (cf : ConfigFile) : Descriptor → Except PyError Value
  | .legacy c => cf._get_from_legacy c
  | .yamlD c =>
    if pyTruthy cf.yaml_config then cf._get_from_yaml c
    else .error .notImplementedError

/-- `LegacyConfigEntry.read_from_file`: `None` config yields `None`;
otherwise `cfg.get` plus transform, with `configparser.Error` (and only
that class) swallowed to `None`. -/
def LegacyConfigEntry.read_from_file (c : LegacyConfigEntry)
    (cfg : Option ConfigFile) (transform : Option (Value → Value)) :
    Except PyError Value :=
  match cfg with
  | none => .ok .null
  | some cf =>
    match cf.get (.legacy c) with
    | .ok v => .ok (applyTransform transform v)
    | .error .configparserError => .ok .null
    | .error e => .error e

/-- `YamlConfigEntry.read_from_file`: `None` config yields `None`;
otherwise `cfg.get` and, when the result is truthy, the transform; every
exception (`except Exception`) is swallowed to `None`, so the function
never raises. -/
def YamlConfigEntry.read_from_file (c : YamlConfigEntry)
    (cfg : Option ConfigFile) (transform : Option (Value → Value)) : Value :=
  match cfg with
  | none => .null
  | some cf =>
    match cf.get (.yamlD c) with
    | .ok v => if pyTruthy v then applyTransform transform v else .null
    | .error _ => .null

/-- `ConfigEntry`: a legacy descriptor, an optional YAML descriptor and an
optional transform (any Python callable — it may return `None`). -/
structure ConfigEntry where
  legacy : LegacyConfigEntry
  yaml_entry : Option YamlConfigEntry := none
  transform : Option (Value → Value) := none

/-- `ConfigEntry` construction including `__post_init__`: when no transform
is given and the legacy descriptor's type is `bool`, the entry adopts
`bool_transformer` (the sole entry of `legacy_default_transforms`). -/
def ConfigEntry.mk' (legacy : LegacyConfigEntry)
    (yaml_entry : Option YamlConfigEntry := none)
    (transform : Option (Value → Value) := none) : ConfigEntry :=
  { legacy, yaml_entry,
    transform :=
      match transform with
      | some f => some f
      | none => if legacy.type_ = .bool then some bool_transformer else none }

/-- `ConfigEntry.read`: environment first (`is not None` test on the
transformed value), then the legacy file when one is loaded, then the YAML
file when one is loaded *and* truthy *and* a YAML descriptor exists. -/
def ConfigEntry.read (e : ConfigEntry) (env : EnvMap)
    (cfg : Option ConfigFile) : Except PyError Value :=
  let from_env := e.legacy.read_from_env env e.transform
  if from_env.isNull then
    match cfg with
    | none => .ok .null
    | some cf =>
      if cf.legacy_config.isSome then e.legacy.read_from_file (some cf) e.transform
      else if pyTruthy cf.yaml_config then
        match e.yaml_entry with
        | some y => .ok (y.read_from_file (some cf) e.transform)
        | none => .ok .null
      else .ok .null
  else .ok from_env

/-- The env var that the flytectl sandbox instructions say to set. -/
def FLYTECTL_CONFIG_ENV_VAR : String := "FLYTECTL_CONFIG"

/-- Filesystem as `get_config_file` observes it: path existence, the parse
outcome of each location's content for either format, path absolutisation
and the user's home directory. -/
structure FS where
  pathExists : String → Bool
  iniParse : String → IniParse
  yamlParse : String → YamlParse
  absolute : String → String
  home : String

/-- Load `ConfigFile` at a location of the given filesystem. -/
def FS.load (fs : FS) (location : String) : Except PyError ConfigFile :=
  ConfigFile.mk? location (fs.iniParse location) (fs.yamlParse location)

/-- Argument to `get_config_file`: `None`, a path string, or an
already-loaded `ConfigFile`. -/
inductive ConfigArg where
  | noneArg
  | pathArg (s : String)
  | fileArg (cf : ConfigFile)

/-- `get_config_file`: `None` triggers the ordered candidate search —
`./flytekit.config`, `~/.flyte/config`, the path named by
`FLYTECTL_CONFIG` (only when set, non-empty and existing), then
`~/.flyte/config.yaml`; the first existing candidate is loaded (and a load
failure propagates); no match yields `None`.  A string is loaded directly;
a `ConfigFile` passes through. -/
def get_config_file (fs : FS) (env : EnvMap) (c : ConfigArg) :
    Except PyError (Option ConfigFile) :=
  match c with
  | .fileArg cf => .ok (some cf)
  | .pathArg s => (fs.load s).map some
  | .noneArg =>
    if fs.pathExists "flytekit.config" then
      (fs.load (fs.absolute "flytekit.config")).map some
    else if fs.pathExists (fs.home ++ "/.flyte/config") then
      (fs.load (fs.absolute (fs.home ++ "/.flyte/config"))).map some
    else
      let yamlCandidate : Except PyError (Option ConfigFile) :=
        if fs.pathExists (fs.home ++ "/.flyte/config.yaml") then
          (fs.load (fs.absolute (fs.home ++ "/.flyte/config.yaml"))).map some
        else .ok none
      match envLookup env FLYTECTL_CONFIG_ENV_VAR with
      | some p =>
        if p != "" && fs.pathExists p then (fs.load (fs.absolute p)).map some
        else yamlCandidate
      | none => yamlCandidate


/-! ## Claim theorems -/

/-- C4: for every non-yaml-suffixed location whose parsed INI content
contains a section named `"internal"`, `ConfigFile` construction fails with
`FlyteAssertion` regardless of the rest of the content; for every parsed
INI content without such a section, construction succeeds (and in
particular does not raise that error). -/
theorem c4_internal_section_rejected (loc : String) (doc : IniDoc) (yml : YamlParse)
    (h : pyEndsWith loc "yaml" = false) :
    (hasSection doc "internal" = true →
      ConfigFile.mk? loc (.ok doc) yml = .error .flyteAssertion)
    ∧ (hasSection doc "internal" = false →
      ConfigFile.mk? loc (.ok doc) yml = .ok ⟨loc, some doc, .null⟩) := by
  constructor <;> intro hs <;> simp [ConfigFile.mk?, h, hs]

/-- Witness for C4 at a concrete INI file with and without the reserved
section. -/
theorem c4_witness :
    ConfigFile.mk? "flytekit.config" (.ok [("internal", [("a", "b")])]) .err
      = .error .flyteAssertion
    ∧ ConfigFile.mk? "flytekit.config" (.ok [("other", [("a", "b")])]) .err
      = .ok ⟨"flytekit.config", some [("other", [("a", "b")])], .null⟩ :=
  ⟨(c4_internal_section_rejected "flytekit.config" [("internal", [("a", "b")])] .err rfl).1 rfl,
   (c4_internal_section_rejected "flytekit.config" [("other", [("a", "b")])] .err rfl).2 rfl⟩

/-- C5: for a boolean-typed `LegacyConfigEntry` (whose `ConfigEntry`
auto-adopts `bool_transformer`), `read_from_env` maps an environment value
whose lower-casing is `"false"`, `"0"`, `"off"` or `"no"` to boolean false,
and every other non-empty value to boolean true. -/
theorem c5_bool_env_coercion (sec opt s : String) (env : EnvMap)
    (hset : envLookup env (LegacyConfigEntry.envVarName ⟨sec, opt, .bool⟩) = some s) :
    (ConfigEntry.mk' ⟨sec, opt, .bool⟩ none none).transform = some bool_transformer
    ∧ (["false", "0", "off", "no"].contains (pyLower s) = true →
        LegacyConfigEntry.read_from_env ⟨sec, opt, .bool⟩ env (some bool_transformer)
          = .bool false)
    ∧ ((s != "") = true → ["false", "0", "off", "no"].contains (pyLower s) = false →
        LegacyConfigEntry.read_from_env ⟨sec, opt, .bool⟩ env (some bool_transformer)
          = .bool true) := by
  have h1 : LegacyConfigEntry.read_from_env ⟨sec, opt, .bool⟩ env (some bool_transformer)
      = bool_transformer (.str s) := by
    simp [LegacyConfigEntry.read_from_env, hset, applyTransform]
  refine ⟨rfl, ?_, ?_⟩
  · intro hmem
    rw [h1]
    show Value.bool (s != "" && !(["false", "0", "off", "no"].contains (pyLower s)))
      = .bool false
    rw [hmem]
    simp
  · intro hne hmem
    rw [h1]
    show Value.bool (s != "" && !(["false", "0", "off", "no"].contains (pyLower s)))
      = .bool true
    rw [hmem, hne]
    rfl

/-- Witness for C5 on the values `"FaLsE"` (false despite mixed case) and
`"anything"` (true). -/
theorem c5_witness :
    LegacyConfigEntry.read_from_env ⟨"sec", "opt", .bool⟩ [("FLYTE_SEC_OPT", "FaLsE")]
      (some bool_transformer) = .bool false
    ∧ LegacyConfigEntry.read_from_env ⟨"sec", "opt", .bool⟩ [("FLYTE_SEC_OPT", "anything")]
      (some bool_transformer) = .bool true :=
  ⟨(c5_bool_env_coercion "sec" "opt" "FaLsE" [("FLYTE_SEC_OPT", "FaLsE")] rfl).2.1 rfl,
   (c5_bool_env_coercion "sec" "opt" "anything" [("FLYTE_SEC_OPT", "anything")] rfl).2.2 rfl rfl⟩

/-- C6: `read_from_env` consults exactly the environment variable
`FLYTE_{SECTION}_{OPTION}` (upper-cased): unset yields `None`; set yields
the transform applied to the raw value, or the raw string without a
transform; and the result depends on the environment only through that one
variable. -/
theorem c6_read_from_env_contract (c : LegacyConfigEntry) (env : EnvMap)
    (t : Option (Value → Value)) :
    c.envVarName = "FLYTE_" ++ pyUpper c.«section» ++ "_" ++ pyUpper c.option
    ∧ (envLookup env c.envVarName = none → c.read_from_env env t = .null)
    ∧ (∀ v, envLookup env c.envVarName = some v →
        c.read_from_env env t = applyTransform t (.str v))
    ∧ (∀ v, envLookup env c.envVarName = some v →
        c.read_from_env env none = .str v)
    ∧ (∀ env2 : EnvMap, envLookup env2 c.envVarName = envLookup env c.envVarName →
        c.read_from_env env2 t = c.read_from_env env t) := by
  refine ⟨rfl, ?_, ?_, ?_, ?_⟩
  · intro h; simp [LegacyConfigEntry.read_from_env, h]
  · intro v h; simp [LegacyConfigEntry.read_from_env, h]
  · intro v h; simp [LegacyConfigEntry.read_from_env, h, applyTransform]
  · intro env2 h; simp [LegacyConfigEntry.read_from_env, h]

/-- Witness for C6: a set variable is read back raw, an unset one yields
`None`. -/
theorem c6_witness :
    LegacyConfigEntry.read_from_env ⟨"sec", "opt", .str⟩ [("FLYTE_SEC_OPT", "v")] none
      = .str "v"
    ∧ LegacyConfigEntry.read_from_env ⟨"sec", "opt", .str⟩ [] none = .null :=
  ⟨(c6_read_from_env_contract ⟨"sec", "opt", .str⟩ [("FLYTE_SEC_OPT", "v")] none).2.2.2.1
      "v" rfl,
   (c6_read_from_env_contract ⟨"sec", "opt", .str⟩ [] none).2.1 rfl⟩

/-- C9: any `ConfigFile` successfully constructed from a non-yaml-suffixed
location answers `get` on a `YamlConfigEntry` descriptor with
`NotImplementedError` (its YAML document is `None`, hence falsy), rather
than returning absent. -/
theorem c9_yaml_descriptor_on_legacy_file (loc : String) (ini : IniParse)
    (yml : YamlParse) (cf : ConfigFile) (y : YamlConfigEntry)
    (h : ConfigFile.mk? loc ini yml = .ok cf)
    (hny : pyEndsWith loc "yaml" = false) :
    cf.get (.yamlD y) = .error .notImplementedError := by
  simp only [ConfigFile.mk?, hny, Bool.false_eq_true, if_false] at h
  cases ini with
  | err => simp at h
  | ok doc =>
    by_cases hs : hasSection doc "internal" = true
    · simp [hs] at h
    · simp only [hs, Bool.false_eq_true, if_false] at h
      rw [Bool.not_eq_true] at hs
      simp only [hs, if_false, Except.ok.injEq] at h
      subst h
      rfl

/-- Witness for C9 on a legacy-backed file and a concrete YAML descriptor. -/
theorem c9_witness :
    ConfigFile.get ⟨"flytekit.config", some [("s", [("o", "v")])], .null⟩
      (.yamlD ⟨"a.b", .str⟩) = .error .notImplementedError :=
  c9_yaml_descriptor_on_legacy_file "flytekit.config" (.ok [("s", [("o", "v")])]) .err
    ⟨"flytekit.config", some [("s", [("o", "v")])], .null⟩ ⟨"a.b", .str⟩ rfl rfl

/-- C7: the dot-path walk of a `YamlConfigEntry` against a YAML-backed
`ConfigFile`: switch `"a.b.c"` resolves to `42` in
`{a: {b: {c: 42}}}`, resolves to absent in `{a: {b: {}}}`, and in general
any walk that hits a missing key yields absent (`read_from_file` returns a
plain `Value`, so no exception can escape). -/
theorem c7_yaml_dot_path_walk :
    YamlConfigEntry.read_from_file ⟨"a.b.c", .int⟩
      (some ⟨"cfg.yaml", none, .dict [("a", .dict [("b", .dict [("c", .int 42)])])]⟩) none
      = .int 42
    ∧ YamlConfigEntry.read_from_file ⟨"a.b.c", .int⟩
      (some ⟨"cfg.yaml", none, .dict [("a", .dict [("b", .dict [])])]⟩) none = .null
    ∧ ∀ (y : YamlConfigEntry) (cf : ConfigFile) (t : Option (Value → Value)),
        yamlWalk cf.yaml_config (pySplit y.switch '.') = .error .keyError →
        y.read_from_file (some cf) t = .null := by
  refine ⟨rfl, rfl, ?_⟩
  intro y cf t h
  by_cases hp : pyTruthy cf.yaml_config = true
  · have hg : cf.get (.yamlD y) = .ok .null := by
      simp [ConfigFile.get, ConfigFile._get_from_yaml, hp, h]
    simp [YamlConfigEntry.read_from_file, hg, pyTruthy]
  · rw [Bool.not_eq_true] at hp
    simp [YamlConfigEntry.read_from_file, ConfigFile.get, hp]

/-- Witness for C7's general missing-key conjunct at a concrete empty
document. -/
theorem c7_witness :
    YamlConfigEntry.read_from_file ⟨"x.y", .str⟩ (some ⟨"cfg.yaml", none, .dict [("z", .int 1)]⟩)
      none = .null :=
  c7_yaml_dot_path_walk.2.2 ⟨"x.y", .str⟩ ⟨"cfg.yaml", none, .dict [("z", .int 1)]⟩ none rfl

/-- C2 counterexample: a value present in the file but not parsable as the
descriptor's `int` type makes `getint` raise `ValueError`, which is not a
`configparser.Error` and therefore propagates out of `read_from_file`
instead of yielding absent. -/
theorem c2_counterexample :
    LegacyConfigEntry.read_from_file ⟨"s", "o", .int⟩
      (some ⟨"f.config", some [("s", [("o", "abc")])], .null⟩) none
    = .error .valueError := rfl

/-- C2 as amended: `read_from_file` swallows exactly `configparser.Error`
(missing section/option, file-format errors) to absent and passes
successful lookups through the transform, but any other exception from the
underlying lookup — in particular `ValueError` from an unparsable int/bool
value — propagates to the caller. -/
theorem c2_configparser_errors_swallowed (c : LegacyConfigEntry) (cf : ConfigFile)
    (t : Option (Value → Value)) :
    (cf.get (.legacy c) = .error .configparserError →
      c.read_from_file (some cf) t = .ok .null)
    ∧ (∀ v, cf.get (.legacy c) = .ok v →
      c.read_from_file (some cf) t = .ok (applyTransform t v))
    ∧ (∀ e, cf.get (.legacy c) = .error e → e ≠ PyError.configparserError →
      c.read_from_file (some cf) t = .error e) := by
  refine ⟨?_, ?_, ?_⟩
  · intro h; simp [LegacyConfigEntry.read_from_file, h]
  · intro v h; simp [LegacyConfigEntry.read_from_file, h]
  · intro e h hne
    cases e
    case configparserError => exact absurd rfl hne
    all_goals simp [LegacyConfigEntry.read_from_file, h]

/-- Witness for C2's amended statement: a missing option is swallowed to
absent. -/
theorem c2_witness :
    LegacyConfigEntry.read_from_file ⟨"s", "missing", .str⟩
      (some ⟨"f.config", some [("s", [("o", "abc")])], .null⟩) none = .ok .null :=
  (c2_configparser_errors_swallowed ⟨"s", "missing", .str⟩
    ⟨"f.config", some [("s", [("o", "abc")])], .null⟩ none).1 rfl

/-- C1 counterexample: an entry whose transform maps the environment value
`"x"` to `None` (Python `lambda v: None if v == "x" else v`).  With the
environment variable set to `"x"`, `read()` falls through to the supplied
file and returns the file's value — the file content IS consulted and
does override the environment-derived value. -/
theorem c1_counterexample :
    envLookup [("FLYTE_SEC_OPT", "x")]
      (LegacyConfigEntry.envVarName ⟨"sec", "opt", .str⟩) = some "x"
    ∧ ConfigEntry.read
      ⟨⟨"sec", "opt", .str⟩, none, some (fun v => match v with | .str "x" => .null | w => w)⟩
      [("FLYTE_SEC_OPT", "x")]
      (some ⟨"f.config", some [("sec", [("opt", "filevalue")])], .null⟩)
    = .ok (.str "filevalue") := ⟨rfl, rfl⟩

/-- C1 as amended: whenever the entry's environment variable is set and
the transform applied to its value is not `None` (always the case for no
transform or for `bool_transformer`), `read()` returns that
environment-derived value for every optional `ConfigFile`, without
consulting the file. -/
theorem c1_env_precedence (e : ConfigEntry) (env : EnvMap) (cfg : Option ConfigFile)
    (v : String) (hset : envLookup env e.legacy.envVarName = some v)
    (hnn : (applyTransform e.transform (.str v)).isNull = false) :
    e.read env cfg = .ok (applyTransform e.transform (.str v)) := by
  have hre : e.legacy.read_from_env env e.transform = applyTransform e.transform (.str v) := by
    simp [LegacyConfigEntry.read_from_env, hset]
  simp [ConfigEntry.read, hre, hnn]

/-- Witness for C1's amended statement: env value wins over a conflicting
file value. -/
theorem c1_witness :
    ConfigEntry.read ⟨⟨"a", "b", .str⟩, none, none⟩ [("FLYTE_A_B", "v")]
      (some ⟨"f.config", some [("a", [("b", "other")])], .null⟩) = .ok (.str "v") :=
  c1_env_precedence ⟨⟨"a", "b", .str⟩, none, none⟩ [("FLYTE_A_B", "v")]
    (some ⟨"f.config", some [("a", [("b", "other")])], .null⟩) "v" rfl rfl

/-- C10 counterexample: with the environment variable set to the empty
string and a transform mapping `""` to `None` (Python
`lambda v: None if v == "" else v`), `read()` DOES fall through to the
config file and returns the file's value. -/
theorem c10_counterexample :
    envLookup [("FLYTE_SEC_OPT", "")]
      (LegacyConfigEntry.envVarName ⟨"sec", "opt", .str⟩) = some ""
    ∧ ConfigEntry.read
      ⟨⟨"sec", "opt", .str⟩, none, some (fun v => match v with | .str "" => .null | w => w)⟩
      [("FLYTE_SEC_OPT", "")]
      (some ⟨"f.config", some [("sec", [("opt", "filevalue")])], .null⟩)
    = .ok (.str "filevalue") := ⟨rfl, rfl⟩

/-- C10 as amended: with the environment variable set to `""`,
`read_from_env` returns a present value and `read()` returns it for every
optional `ConfigFile`, provided the transform does not map `""` to `None`:
an entry without transform returns the empty string itself, and a
boolean-typed entry (auto-adopting `bool_transformer`) returns boolean
false. -/
theorem c10_empty_env_value (sec opt : String) (y : Option YamlConfigEntry)
    (env : EnvMap) (cfg : Option ConfigFile)
    (hset : envLookup env (LegacyConfigEntry.envVarName ⟨sec, opt, .str⟩) = some "") :
    LegacyConfigEntry.read_from_env ⟨sec, opt, .str⟩ env none = .str ""
    ∧ ConfigEntry.read ⟨⟨sec, opt, .str⟩, y, none⟩ env cfg = .ok (.str "")
    ∧ LegacyConfigEntry.read_from_env ⟨sec, opt, .bool⟩ env (some bool_transformer)
      = .bool false
    ∧ ConfigEntry.read (ConfigEntry.mk' ⟨sec, opt, .bool⟩ y none) env cfg
      = .ok (.bool false) := by
  have h1 : LegacyConfigEntry.read_from_env ⟨sec, opt, .str⟩ env none = .str "" := by
    simp [LegacyConfigEntry.read_from_env, hset, applyTransform]
  have h2 : LegacyConfigEntry.read_from_env ⟨sec, opt, .bool⟩ env (some bool_transformer)
      = .bool false := by
    have : envLookup env (LegacyConfigEntry.envVarName ⟨sec, opt, .bool⟩) = some "" := hset
    simp [LegacyConfigEntry.read_from_env, this, applyTransform, bool_transformer]
  refine ⟨h1, ?_, h2, ?_⟩
  · simp [ConfigEntry.read, h1, Value.isNull]
  · simp [ConfigEntry.read, ConfigEntry.mk', h2, Value.isNull]

/-- Witness for C10's amended statement against a file holding a
conflicting value. -/
theorem c10_witness :
    ConfigEntry.read ⟨⟨"sec", "opt", .str⟩, none, none⟩ [("FLYTE_SEC_OPT", "")]
      (some ⟨"f.config", some [("sec", [("opt", "filevalue")])], .null⟩) = .ok (.str "")
    ∧ ConfigEntry.read (ConfigEntry.mk' ⟨"sec", "opt", .bool⟩ none none)
      [("FLYTE_SEC_OPT", "")]
      (some ⟨"f.config", some [("sec", [("opt", "true")])], .null⟩) = .ok (.bool false) :=
  ⟨(c10_empty_env_value "sec" "opt" none [("FLYTE_SEC_OPT", "")]
      (some ⟨"f.config", some [("sec", [("opt", "filevalue")])], .null⟩) rfl).2.1,
   (c10_empty_env_value "sec" "opt" none [("FLYTE_SEC_OPT", "")]
      (some ⟨"f.config", some [("sec", [("opt", "true")])], .null⟩) rfl).2.2.2⟩

/-- C3 counterexample: a yaml-suffixed location whose content fails YAML
parsing still constructs successfully, but the resulting `ConfigFile` has
NO document populated (yaml document `None`, legacy document `None`) — so
"exactly one of the two documents is populated, the YAML one iff the
location ends in yaml" fails for this constructed instance. -/
theorem c3_counterexample :
    pyEndsWith "bad.yaml" "yaml" = true
    ∧ ConfigFile.mk? "bad.yaml" (.ok [("s", [("o", "v")])]) .err
      = .ok ⟨"bad.yaml", none, .null⟩ := ⟨rfl, rfl⟩

/-- C3 as amended: for every successfully constructed `ConfigFile`, the
legacy document is populated exactly when the location does not end in
`"yaml"` (and then the YAML document is absent, so exactly one document is
populated); for a yaml-suffixed location the legacy document is always
absent and the YAML document holds exactly what `yaml.safe_load` produced —
in particular it is absent (`None`) when parsing failed, so at most one,
but not always exactly one, document is populated. -/
theorem c3_document_population (loc : String) (ini : IniParse) (yml : YamlParse)
    (cf : ConfigFile) (h : ConfigFile.mk? loc ini yml = .ok cf) :
    (cf.legacy_config.isSome = true ↔ pyEndsWith loc "yaml" = false)
    ∧ (pyEndsWith loc "yaml" = false → cf.yaml_config = .null)
    ∧ ¬(cf.legacy_config.isSome = true ∧ cf.yaml_config ≠ .null)
    ∧ (∀ d, yml = .ok d → pyEndsWith loc "yaml" = true → cf.yaml_config = d)
    ∧ (yml = .err → pyEndsWith loc "yaml" = true → cf.yaml_config = .null) := by
  by_cases he : pyEndsWith loc "yaml" = true
  · simp only [ConfigFile.mk?, he, if_true] at h
    cases yml with
    | ok d =>
      simp only [Except.ok.injEq] at h
      subst h
      simp [he]
    | err =>
      simp only [Except.ok.injEq] at h
      subst h
      simp [he]
  · rw [Bool.not_eq_true] at he
    simp only [ConfigFile.mk?, he, Bool.false_eq_true, if_false] at h
    cases ini with
    | err => simp at h
    | ok doc =>
      by_cases hs : hasSection doc "internal" = true
      · simp [hs] at h
      · rw [Bool.not_eq_true] at hs
        simp only [hs, Bool.false_eq_true, if_false, Except.ok.injEq] at h
        subst h
        simp [he]

/-- Witness for C3 as amended, on a concrete legacy-backed file. -/
theorem c3_witness :
    ((⟨"home.config", some [("s", [])], Value.null⟩ : ConfigFile).legacy_config.isSome = true
      ↔ pyEndsWith "home.config" "yaml" = false) :=
  (c3_document_population "home.config" (.ok [("s", [])]) .err
    ⟨"home.config", some [("s", [])], .null⟩ rfl).1

/-- C8: when `get_config_file` is called with no hint and none of the four
ordered candidates exists — `./flytekit.config`, `~/.flyte/config`, the
path named by `FLYTECTL_CONFIG` (for whatever value it may hold), and
`~/.flyte/config.yaml` — the result is `None` and no exception is
raised. -/
theorem c8_locator_no_candidates (fs : FS) (env : EnvMap)
    (h1 : fs.pathExists "flytekit.config" = false)
    (h2 : fs.pathExists (fs.home ++ "/.flyte/config") = false)
    (h3 : ∀ p, envLookup env FLYTECTL_CONFIG_ENV_VAR = some p → fs.pathExists p = false)
    (h4 : fs.pathExists (fs.home ++ "/.flyte/config.yaml") = false) :
    get_config_file fs env .noneArg = .ok none := by
  simp only [get_config_file, h1, h2, h4, Bool.false_eq_true, if_false]
  cases hv : envLookup env FLYTECTL_CONFIG_ENV_VAR with
  | none => rfl
  | some p => simp [h3 p hv]

/-- Witness for C8 on a filesystem with no existing paths and the
well-known variable pointing at a nonexistent file. -/
theorem c8_witness :
    get_config_file ⟨fun _ => false, fun _ => .err, fun _ => .err, id, "/home/user"⟩
      [("FLYTECTL_CONFIG", "/tmp/absent.yaml")] .noneArg = .ok none :=
  c8_locator_no_candidates ⟨fun _ => false, fun _ => .err, fun _ => .err, id, "/home/user"⟩
    [("FLYTECTL_CONFIG", "/tmp/absent.yaml")] rfl rfl (fun _ _ => rfl) rfl

end FlytekitConfig
